import Mathlib

set_option maxHeartbeats 1000000
set_option maxRecDepth 8000

/-!
Verification development for the MNIST CNN tutorial notebook
(`Images/cnn_mnist.ipynb`).  The notebook defines a single model function
`cnn_model_fn(features, labels, mode)` built from TensorFlow layer
primitives, and a driver `main` that trains and evaluates an estimator
bound to it.  We embed the model function shallowly: the external layer
primitives (convolution, pooling, dense, one-hot, cross-entropy, the
optimizer) are abstract operations of a library record `TFLib`, while the
control flow, the branching on the execution mode, the dropout gating, and
the Python local-variable binding of `train_op` are modelled exactly.
Tensor shapes and the softmax/argmax prediction ops are additionally
modelled concretely, over `Nat` shape records and rational-valued rows.
-/

/-- Execution modes of the estimator framework (`tf.estimator.ModeKeys`). -/
inductive ModeKeys where
  | TRAIN
  | EVAL
  | PREDICT
deriving DecidableEq, Repr

/-- The external layers library, abstracted: each field is one TensorFlow
primitive that `cnn_model_fn` calls.  `T` is the type of tensor values.
`reshape` takes the target dims (with `-1` for a dynamically computed
dimension), `conv2d` takes filters and kernel size (padding "same", relu
activation, as in the source), `max_pooling2d` takes pool size and stride,
`dense` takes units and whether relu is applied, `dropout_mask` is the
random transformation dropout applies when its training flag is true,
`one_hot` takes the depth, and `gradient_descent_minimize` takes the
learning rate of `tf.train.GradientDescentOptimizer` and the loss. -/
structure TFLib (T : Type) where
  reshape : T → List Int → T
  conv2d : T → Nat → Nat × Nat → T
  max_pooling2d : T → Nat × Nat → Nat → T
  dense : T → Nat → Bool → T
  dropout_mask : T → ℚ → T
  argmax : T → T
  softmax : T → T
  cast_int32 : T → T
  one_hot : T → Nat → T
  softmax_cross_entropy : T → T → T
  gradient_descent_minimize : ℚ → T → T
  accuracy : T → T → T

variable {T : Type}

/-- `tf.layers.dropout`: the random dropout transformation is applied only
when the `training` flag is true; otherwise the input passes through
unchanged (documented inference-time behaviour of the layer). -/
def dropoutLayer (L : TFLib T) (x : T) (rate : ℚ) (training : Bool) : T :=
  if training then L.dropout_mask x rate else x

/-- The predictions dictionary built by `cnn_model_fn`: entries
`"classes"` and `"probabilities"`. -/
structure Predictions (T : Type) where
  classes : T
  probabilities : T
deriving DecidableEq, Repr

/-- `tf.estimator.EstimatorSpec`: the mode plus the optional payloads the
three construction sites in the source pass to it. -/
structure EstimatorSpec (T : Type) where
  mode : ModeKeys
  predictions : Option (Predictions T)
  loss : Option T
  train_op : Option T
  eval_metric_ops : Option T
deriving DecidableEq, Repr

/-- The runtime failure `cnn_model_fn` can raise: the unconditional
`return` statement reads the local variable `train_op`, which Python only
binds inside the TRAIN branch. -/
inductive ModelError where
  | unbound_local_train_op
deriving DecidableEq, Repr

/-- The forward pass of `cnn_model_fn` up to (and including) the dense
layer: reshape to `[-1, 28, 28, 1]`, conv 32 filters 5x5 relu, max pool
2x2 stride 2, conv 64 filters 5x5 relu, max pool 2x2 stride 2, flatten to
`[-1, 7 * 7 * 64]`, dense 1024 relu. -/
def denseTensor (L : TFLib T) (features : T) : T :=
  let input_layer := L.reshape features [-1, 28, 28, 1]
  let conv1 := L.conv2d input_layer 32 (5, 5)
  let pool1 := L.max_pooling2d conv1 (2, 2) 2
  let conv2 := L.conv2d pool1 64 (5, 5)
  let pool2 := L.max_pooling2d conv2 (2, 2) 2
  let pool2_flat := L.reshape pool2 [-1, 7 * 7 * 64]
  L.dense pool2_flat 1024 true

/-- The logits tensor of `cnn_model_fn`: dropout (rate 0.4, training flag
`mode == TRAIN`) over the dense layer, then a dense layer with 10 units
and no activation. -/
def logitsTensor (L : TFLib T) (features : T) (mode : ModeKeys) : T :=
  let dropout := dropoutLayer L (denseTensor L features) (4 / 10) (mode == ModeKeys.TRAIN)
  L.dense dropout 10 false

/-- The loss computed for the non-PREDICT modes: softmax cross-entropy of
the logits against the one-hot encoding (depth 10) of the labels cast to
int32. -/
def lossTensor (L : TFLib T) (features labels : T) (mode : ModeKeys) : T :=
  L.softmax_cross_entropy (L.one_hot (L.cast_int32 labels) 10) (logitsTensor L features mode)

/-- Shallow embedding of `cnn_model_fn(features, labels, mode)`.  The body
follows the source line by line: input reshape, two conv/pool stages,
flatten, dense, dropout gated on TRAIN mode, logits, the predictions dict
(argmax classes and softmax probabilities), the PREDICT early return, the
one-hot cross-entropy loss, the TRAIN-only binding of `train_op`, and the
unconditional `return EstimatorSpec(mode, loss, train_op)`.  The Python
local `train_op` is modelled as an `Option`: it is `some` only when the
TRAIN branch ran, and the final return statement fails with an
unbound-local error when it is `none`.  The evaluation-metrics code after
that return is unreachable in the source and has no branch here (see
`eval_metric_spec` for the spec it would have built). -/
def cnn_model_fn (L : TFLib T) (features labels : T) (mode : ModeKeys) :
    Except ModelError (EstimatorSpec T) :=
  let input_layer := L.reshape features [-1, 28, 28, 1]
  let conv1 := L.conv2d input_layer 32 (5, 5)
  let pool1 := L.max_pooling2d conv1 (2, 2) 2
  let conv2 := L.conv2d pool1 64 (5, 5)
  let pool2 := L.max_pooling2d conv2 (2, 2) 2
  let pool2_flat := L.reshape pool2 [-1, 7 * 7 * 64]
  let dense := L.dense pool2_flat 1024 true
  let dropout := dropoutLayer L dense (4 / 10) (mode == ModeKeys.TRAIN)
  let logits := L.dense dropout 10 false
  let predictions : Predictions T := ⟨L.argmax logits, L.softmax logits⟩
  if mode == ModeKeys.PREDICT then
    Except.ok ⟨mode, some predictions, none, none, none⟩
  else
    let onehot_labels := L.one_hot (L.cast_int32 labels) 10
    let loss := L.softmax_cross_entropy onehot_labels logits
    let train_op : Option T :=
      if mode == ModeKeys.TRAIN then
        some (L.gradient_descent_minimize (1 / 1000) loss)
      else
        none
    match train_op with
    | some t => Except.ok ⟨mode, none, some loss, some t, none⟩
    | none => Except.error ModelError.unbound_local_train_op

/-- The EstimatorSpec the dead evaluation-metrics code after the
unconditional return would build: loss plus an accuracy metric comparing
the labels with the predicted classes. -/
def eval_metric_spec (L : TFLib T) (labels loss classes : T) (mode : ModeKeys) :
    EstimatorSpec T :=
  ⟨mode, none, some loss, none, some (L.accuracy labels classes)⟩

/-- The `eval_metric_ops` payload of the result of a `cnn_model_fn` call,
when the call returned a spec at all. -/
def exceptEvalMetricOps : Except ModelError (EstimatorSpec T) → Option T
  | Except.ok s => s.eval_metric_ops
  | Except.error _ => none

/-- Claim C1: in PREDICT mode `cnn_model_fn` returns an EstimatorSpec
holding only the predictions mapping, with the argmax classes and softmax
probabilities of the logits; its loss, train-op and eval-metric payloads
are all absent, and the loss computation is never reached. -/
theorem predict_mode_predictions_only (L : TFLib T) (features labels : T) :
    cnn_model_fn L features labels ModeKeys.PREDICT =
      Except.ok ⟨ModeKeys.PREDICT,
        some ⟨L.argmax (logitsTensor L features ModeKeys.PREDICT),
              L.softmax (logitsTensor L features ModeKeys.PREDICT)⟩,
        none, none, none⟩ :=
  rfl

/-- Claim C2: in TRAIN mode `cnn_model_fn` computes the softmax
cross-entropy loss of the logits against the one-hot (depth 10) labels,
builds a gradient-descent step with learning rate 0.001 minimizing that
loss, and returns an EstimatorSpec carrying exactly that loss and that
update operation. -/
theorem train_mode_loss_and_sgd_step (L : TFLib T) (features labels : T) :
    cnn_model_fn L features labels ModeKeys.TRAIN =
      Except.ok ⟨ModeKeys.TRAIN, none,
        some (lossTensor L features labels ModeKeys.TRAIN),
        some (L.gradient_descent_minimize (1 / 1000)
          (lossTensor L features labels ModeKeys.TRAIN)),
        none⟩ :=
  rfl

/-- Claim C9: in EVAL mode the unconditional return statement reads the
local `train_op`, which only the TRAIN branch binds, so the call fails
with an unbound-local error and no EstimatorSpec is produced. -/
theorem eval_mode_unbound_local (L : TFLib T) (features labels : T) :
    cnn_model_fn L features labels ModeKeys.EVAL =
      Except.error ModelError.unbound_local_train_op :=
  rfl

/-- Claim C4: the evaluation-metrics code after the unconditional return
is dead: for every library, input and mode, the result of `cnn_model_fn`
carries no `eval_metric_ops` payload (PREDICT and TRAIN return earlier
specs without it, EVAL fails at the return statement), so the spec built
by `eval_metric_spec` is never produced. -/
theorem eval_metrics_code_unreachable (L : TFLib T) (features labels : T) (mode : ModeKeys) :
    exceptEvalMetricOps (cnn_model_fn L features labels mode) = none := by
  cases mode <;> rfl

/-- Claim C10: dropout (rate 0.4) is applied only in TRAIN mode; in EVAL
and PREDICT modes the dropout layer's training flag is false and the dense
output reaches the logits layer unchanged. -/
theorem dropout_active_only_in_train (L : TFLib T) (features : T) :
    logitsTensor L features ModeKeys.TRAIN =
        L.dense (L.dropout_mask (denseTensor L features) (4 / 10)) 10 false
      ∧ logitsTensor L features ModeKeys.EVAL =
        L.dense (denseTensor L features) 10 false
      ∧ logitsTensor L features ModeKeys.PREDICT =
        L.dense (denseTensor L features) 10 false :=
  ⟨rfl, rfl, rfl⟩

/-- A rank-4 tensor shape `[batch, height, width, channels]`. -/
structure Shape4 where
  batch : Nat
  height : Nat
  width : Nat
  channels : Nat
deriving DecidableEq, Repr

/-- A rank-2 tensor shape `[batch, features]`. -/
structure Shape2 where
  batch : Nat
  features : Nat
deriving DecidableEq, Repr

/-- Shape semantics of `tf.reshape(x, [-1, d1, d2, d3])`: the `-1`
dimension is computed dynamically as the number of input values divided by
the product of the given dimensions. -/
def reshape4Shape (numel d1 d2 d3 : Nat) : Shape4 :=
  ⟨numel / (d1 * d2 * d3), d1, d2, d3⟩

/-- Shape semantics of `tf.reshape(x, [-1, d])`. -/
def reshape2Shape (numel d : Nat) : Shape2 :=
  ⟨numel / d, d⟩

/-- Shape semantics of `tf.layers.conv2d` with padding "same" and stride 1
(the source's calls): spatial dimensions are preserved and the channel
count becomes the filter count. -/
def conv2dSameShape (s : Shape4) (filters : Nat) : Shape4 :=
  ⟨s.batch, s.height, s.width, filters⟩

/-- Shape semantics of `tf.layers.max_pooling2d` with a square pool and the
default valid padding: each spatial dimension becomes
`(dim - pool) / stride + 1`. -/
def maxPool2dShape (s : Shape4) (pool stride : Nat) : Shape4 :=
  ⟨s.batch, (s.height - pool) / stride + 1, (s.width - pool) / stride + 1, s.channels⟩

/-- Number of values in a rank-4 tensor. -/
def numel4 (s : Shape4) : Nat :=
  s.batch * s.height * s.width * s.channels

/-- Shape semantics of `tf.layers.dense`: the feature dimension becomes the
unit count. -/
def denseShape (s : Shape2) (units : Nat) : Shape2 :=
  ⟨s.batch, units⟩

/-- The shape of the `input_layer` tensor of `cnn_model_fn`: the flat
per-example input `features["x"]` reshaped by `[-1, 28, 28, 1]`, the batch
dimension computed dynamically from the number of input values. -/
def input_layer_shape (x : List ℚ) : Shape4 :=
  reshape4Shape x.length 28 28 1

/-- The shape pipeline of `cnn_model_fn` from `numel` input values down to
the logits layer, following the source layer by layer. -/
def cnnLogitsShape (numel : Nat) : Shape2 :=
  let input_layer := reshape4Shape numel 28 28 1
  let conv1 := conv2dSameShape input_layer 32
  let pool1 := maxPool2dShape conv1 2 2
  let conv2 := conv2dSameShape pool1 64
  let pool2 := maxPool2dShape conv2 2 2
  let pool2_flat := reshape2Shape (numel4 pool2) (7 * 7 * 64)
  let dense := denseShape pool2_flat 1024
  denseShape dense 10

/-- Claim C5: reshaping a flat input of 784 values per example (batch size
B) at the start of `cnn_model_fn` yields shape `[B, 28, 28, 1]`, the batch
dimension computed dynamically from the number of input values. -/
theorem input_reshape_shape (B : Nat) (x : List ℚ) (h : x.length = B * 784) :
    input_layer_shape x = ⟨B, 28, 28, 1⟩ := by
  simp only [input_layer_shape, reshape4Shape, h, Shape4.mk.injEq]
  norm_num

/-- Witness for claim C5 at batch size 1: a flat list of 784 values
reshapes to `[1, 28, 28, 1]`. -/
theorem input_reshape_shape_witness :
    input_layer_shape (List.replicate 784 (0 : ℚ)) = ⟨1, 28, 28, 1⟩ :=
  input_reshape_shape 1 (List.replicate 784 (0 : ℚ)) (by simp)

/-- Claim C6: for any batch size B (input of B * 784 values), the logits
tensor produced by the final dense layer of `cnn_model_fn` has shape
`[B, 10]`. -/
theorem logits_shape (B : Nat) : cnnLogitsShape (B * 784) = ⟨B, 10⟩ := by
  simp only [cnnLogitsShape, reshape4Shape, conv2dSameShape, maxPool2dShape, numel4,
    reshape2Shape, denseShape, Shape2.mk.injEq]
  norm_num
  omega

/-- The maximum entry of a row of scores (used to model `tf.argmax`). -/
def maxVal : List ℚ → ℚ
  | [] => 0
  | [v] => v
  | v :: w :: t => max v (maxVal (w :: t))

/-- Concrete model of `tf.argmax(input, axis=1)` on one row: the index of
the first occurrence of the row's maximum entry. -/
def argmaxIdx (l : List ℚ) : Nat :=
  l.indexOf (maxVal l)

/-- Concrete model of `tf.nn.softmax` on one row of logits, parametrised
by the (strictly positive) exponential function `E`: each entry is
normalized by the row sum of exponentials. -/
def softmaxQ (E : ℚ → ℚ) (l : List ℚ) : List ℚ :=
  l.map fun v => E v / (l.map E).sum

/-- The `"classes"` entry of the predictions dict, per example. -/
def argmaxAxis1 (t : List (List ℚ)) : List Nat :=
  t.map argmaxIdx

/-- The `"probabilities"` entry of the predictions dict, per example. -/
def softmaxAxis1 (E : ℚ → ℚ) (t : List (List ℚ)) : List (List ℚ) :=
  t.map (softmaxQ E)

lemma maxVal_mem : ∀ l : List ℚ, l ≠ [] → maxVal l ∈ l
  | [], h => absurd rfl h
  | [v], _ => by simp [maxVal]
  | v :: w :: t, _ => by
    rw [maxVal]
    rcases le_total v (maxVal (w :: t)) with hle | hle
    · rw [max_eq_right hle]
      exact List.mem_cons_of_mem v (maxVal_mem (w :: t) (List.cons_ne_nil w t))
    · rw [max_eq_left hle]
      exact List.mem_cons_self v (w :: t)

lemma le_maxVal : ∀ l : List ℚ, ∀ v ∈ l, v ≤ maxVal l
  | [], v, hv => absurd hv (List.not_mem_nil v)
  | [w], v, hv => by
    rw [List.mem_singleton] at hv
    simp [maxVal, hv]
  | w :: u :: t, v, hv => by
    rw [maxVal]
    rcases List.mem_cons.mp hv with h | h
    · exact h ▸ le_max_left w (maxVal (u :: t))
    · exact le_trans (le_maxVal (u :: t) v h) (le_max_right w (maxVal (u :: t)))

lemma argmaxIdx_lt_length (l : List ℚ) (h : l ≠ []) : argmaxIdx l < l.length :=
  List.indexOf_lt_length.mpr (maxVal_mem l h)

lemma getD_argmaxIdx (l : List ℚ) (h : l ≠ []) : l.getD (argmaxIdx l) 0 = maxVal l := by
  have hlt : l.indexOf (maxVal l) < l.length := List.indexOf_lt_length.mpr (maxVal_mem l h)
  rw [argmaxIdx, List.getD_eq_getElem _ _ hlt]
  exact List.getElem_indexOf hlt

lemma sum_map_div (l : List ℚ) (f : ℚ → ℚ) (c : ℚ) :
    (l.map fun v => f v / c).sum = (l.map f).sum / c := by
  induction l with
  | nil => simp
  | cons v t ih => simp [ih, add_div]

lemma softmaxQ_sum (E : ℚ → ℚ) (hE : ∀ v, 0 < E v) (l : List ℚ) (h : l ≠ []) :
    (softmaxQ E l).sum = 1 := by
  have hpos : 0 < (l.map E).sum := by
    refine List.sum_pos _ (fun x hx => ?_) (by simpa using h)
    rcases List.mem_map.mp hx with ⟨v, _, rfl⟩
    exact hE v
  rw [softmaxQ, sum_map_div]
  exact div_self (ne_of_gt hpos)

/-- Claim C7: for a batch of logits rows of length 10, the predictions
mapping entries satisfy: every `"classes"` value is the arg-max index of
its row — an integer in `[0, 9]`, the row attains its maximum there — and
every `"probabilities"` row is the softmax of its logits row and sums
to 1. -/
theorem predictions_classes_and_probabilities (E : ℚ → ℚ) (hE : ∀ v, 0 < E v)
    (logits : List (List ℚ)) (h10 : ∀ row ∈ logits, row.length = 10) :
    (∀ c ∈ argmaxAxis1 logits, c ≤ 9)
    ∧ (∀ row ∈ logits, ∀ v ∈ row, v ≤ row.getD (argmaxIdx row) 0)
    ∧ (∀ p ∈ softmaxAxis1 E logits, p.sum = 1) := by
  refine ⟨fun c hc => ?_, fun row hrow v hv => ?_, fun p hp => ?_⟩
  · rcases List.mem_map.mp hc with ⟨row, hrow, rfl⟩
    have hne : row ≠ [] := List.ne_nil_of_length_pos (by rw [h10 row hrow]; norm_num)
    have hlt := argmaxIdx_lt_length row hne
    rw [h10 row hrow] at hlt
    omega
  · have hne : row ≠ [] := List.ne_nil_of_length_pos (by rw [h10 row hrow]; norm_num)
    rw [getD_argmaxIdx row hne]
    exact le_maxVal row v hv
  · rcases List.mem_map.mp hp with ⟨row, hrow, rfl⟩
    have hne : row ≠ [] := List.ne_nil_of_length_pos (by rw [h10 row hrow]; norm_num)
    exact softmaxQ_sum E hE row hne

/-- Witness for claim C7 at a concrete one-row batch of 10 logits with the
constant positive exponential. -/
theorem predictions_classes_and_probabilities_witness :
    (∀ c ∈ argmaxAxis1 [[0, 1, 2, 3, 4, 5, 6, 7, 8, (9 : ℚ)]], c ≤ 9)
    ∧ (∀ row ∈ [[0, 1, 2, 3, 4, 5, 6, 7, 8, (9 : ℚ)]],
        ∀ v ∈ row, v ≤ row.getD (argmaxIdx row) 0)
    ∧ (∀ p ∈ softmaxAxis1 (fun _ => 1) [[0, 1, 2, 3, 4, 5, 6, 7, 8, (9 : ℚ)]], p.sum = 1) :=
  predictions_classes_and_probabilities (fun _ => 1) (fun _ => one_pos)
    [[0, 1, 2, 3, 4, 5, 6, 7, 8, (9 : ℚ)]] (by decide)

/-- Symbolic tensor expressions: a concrete tensor type on which every
library primitive builds a syntax node, giving a concrete instance of
`TFLib` whose runs of `cnn_model_fn` can be evaluated and inspected.
`x` is the input `features["x"]` and `y` is the labels array. -/
inductive TExp where
  | x
  | y
  | reshape (t : TExp) (dims : List Int)
  | conv2d (t : TExp) (filters kh kw : Nat)
  | max_pool (t : TExp) (ph pw stride : Nat)
  | dense (t : TExp) (units : Nat) (relu : Bool)
  | dropout_mask (t : TExp) (rate : ℚ)
  | argmax (t : TExp)
  | softmax (t : TExp)
  | cast_int32 (t : TExp)
  | one_hot (t : TExp) (depth : Nat)
  | cross_entropy (onehot logits : TExp)
  | sgd_minimize (lr : ℚ) (loss : TExp)
  | accuracy (labels preds : TExp)
deriving DecidableEq, Repr

/-- The symbolic instance of the layers library. -/
def expLib : TFLib TExp :=
  ⟨TExp.reshape,
   fun t filters k => TExp.conv2d t filters k.1 k.2,
   fun t p stride => TExp.max_pool t p.1 p.2 stride,
   TExp.dense,
   TExp.dropout_mask,
   TExp.argmax,
   TExp.softmax,
   TExp.cast_int32,
   TExp.one_hot,
   TExp.cross_entropy,
   TExp.sgd_minimize,
   TExp.accuracy⟩

/-- All dropout rates occurring in a symbolic tensor expression, in
syntactic order. -/
def TExp.dropoutRates : TExp → List ℚ
  | TExp.x => []
  | TExp.y => []
  | TExp.reshape t _ => t.dropoutRates
  | TExp.conv2d t _ _ _ => t.dropoutRates
  | TExp.max_pool t _ _ _ => t.dropoutRates
  | TExp.dense t _ _ => t.dropoutRates
  | TExp.dropout_mask t r => r :: t.dropoutRates
  | TExp.argmax t => t.dropoutRates
  | TExp.softmax t => t.dropoutRates
  | TExp.cast_int32 t => t.dropoutRates
  | TExp.one_hot t _ => t.dropoutRates
  | TExp.cross_entropy a b => a.dropoutRates ++ b.dropoutRates
  | TExp.sgd_minimize _ t => t.dropoutRates
  | TExp.accuracy a b => a.dropoutRates ++ b.dropoutRates

/-- The learning rate of the gradient-descent update operation carried by
the result of a symbolic `cnn_model_fn` run, when there is one. -/
def specLearningRate : Except ModelError (EstimatorSpec TExp) → Option ℚ
  | Except.ok s =>
    match s.train_op with
    | some (TExp.sgd_minimize lr _) => some lr
    | _ => none
  | Except.error _ => none

/-- The loss expression carried by the result of a symbolic
`cnn_model_fn` run, when there is one. -/
def specLoss : Except ModelError (EstimatorSpec TExp) → Option TExp
  | Except.ok s => s.loss
  | Except.error _ => none

/-- One call the driver routine `main` makes, with the literal arguments
of the source: dataset loading, estimator construction with its model
directory, the logging hook on the `"softmax_tensor"` tensor, `train` on
the shuffled training input function with the logging hook attached,
`evaluate` on the unshuffled single-epoch test input function, and the
final printing of the metrics. -/
inductive MainStep where
  | load_dataset (name : String)
  | create_classifier (model_dir : String)
  | create_logging_hook (tensor_name : String) (every_n_iter : Nat)
  | train (batch_size steps : Nat) (shuffle with_logging_hook : Bool)
  | evaluate (num_epochs : Nat) (shuffle : Bool)
  | print_eval_results
deriving DecidableEq, Repr

/-- The driver `main(unused_argv)` (named `mainTrace` because Lean
reserves `main`), modelled as the sequence of library calls it makes, each
with the hard-coded literal arguments of the source. -/
def mainTrace : List MainStep :=
  [MainStep.load_dataset "mnist",
   MainStep.create_classifier "/tmp/mnist_convnet_model",
   MainStep.create_logging_hook "softmax_tensor" 50,
   MainStep.train 100 20000 true true,
   MainStep.evaluate 1 false,
   MainStep.print_eval_results]

/-- Claim C8: `main` performs exactly one training run with batch size
100, 20000 steps, shuffling and the logging hook attached; it creates the
logging hook on the softmax output tensor with interval 50; the single
unshuffled one-epoch evaluation pass runs only after training and its
metrics are printed after it; and the model function it binds uses
learning rate 0.001 and dropout rate 0.4 in TRAIN mode. -/
theorem driver_hyperparameters_and_order :
    mainTrace.count (MainStep.train 100 20000 true true) = 1
    ∧ mainTrace.count (MainStep.evaluate 1 false) = 1
    ∧ MainStep.create_logging_hook "softmax_tensor" 50 ∈ mainTrace
    ∧ mainTrace.indexOf (MainStep.train 100 20000 true true)
        < mainTrace.indexOf (MainStep.evaluate 1 false)
    ∧ mainTrace.indexOf (MainStep.evaluate 1 false)
        < mainTrace.indexOf MainStep.print_eval_results
    ∧ specLearningRate (cnn_model_fn expLib TExp.x TExp.y ModeKeys.TRAIN) = some (1 / 1000)
    ∧ (specLoss (cnn_model_fn expLib TExp.x TExp.y ModeKeys.TRAIN)).map TExp.dropoutRates
        = some [4 / 10] :=
  ⟨by decide, by decide, by decide, by decide, by decide, rfl, rfl⟩

/-- Claim C3 fails on the code (the claimed EVAL contract is the
documented intent, but the unconditional return inside the function makes
EVAL mode raise instead): at the concrete symbolic inputs in EVAL mode,
`cnn_model_fn` produces no EstimatorSpec at all — it fails with the
unbound-local `train_op` error, so no loss-plus-accuracy spec is
returned. -/
theorem eval_mode_fails_at_concrete_input :
    cnn_model_fn expLib TExp.x TExp.y ModeKeys.EVAL =
      Except.error ModelError.unbound_local_train_op :=
  rfl
